import Mathlib

/-!
Shallow embedding of `src/main.py` (Azure OpenAI Cost Estimator).

The core of the program is `calculate_costs`, which maps scenario
parameters, a per-input-token price, a visitor count and three per-turn
token counts to a five-field metrics mapping, writing that mapping into
the Streamlit session state (`st.session_state['calculated_metrics']`)
before returning it.  `generate_scenarios` folds `calculate_costs` over
the fixed, insertion-ordered `SCENARIOS` dict, substituting the
caller-supplied custom parameters for the preset named "Custom".

Python floats are modelled by exact rationals (`ℚ`); token counts, which
Python keeps as `int` throughout the loop, are modelled by `ℕ`.  The
ambient Streamlit session state is made explicit: every function of the
program that touches it takes the state as an argument and returns the
updated state alongside its Python return value.
-/

/-- The `params` dict handed to `calculate_costs`: one scenario's
behavioural assumptions (`SCENARIOS` values / custom sidebar inputs). -/
structure Params where
  engagement_rate : ℚ
  conversations_per_user : ℚ
  avg_questions_per_convo : ℕ
deriving DecidableEq, Repr

/-- The five-field metrics dict built and returned by `calculate_costs`
("Engaged Users", "Total Conversations", "Tokens per Conversation",
"Total Tokens", "Estimated Cost (GBP)"). -/
structure Metrics where
  engagedUsers : ℚ
  totalConversations : ℚ
  tokensPerConversation : ℕ
  totalTokens : ℚ
  estimatedCost : ℚ
deriving DecidableEq, Repr

/-- The part of `st.session_state` the program touches: the
`'calculated_metrics'` entry.  `none` models the initial empty dict `{}`
installed at import time (main.py lines 21-22). -/
structure SessionState where
  calculated_metrics : Option Metrics
deriving DecidableEq, Repr

/-- Session state right after the module-level initialisation
`st.session_state["calculated_metrics"] = {}`. -/
def initialSessionState : SessionState := { calculated_metrics := none }

/-- The module-level `SCENARIOS` dict (main.py lines 36-57), as the
insertion-ordered association list Python iterates over. -/
def SCENARIOS : List (String × Params) :=
  [("Low", { engagement_rate := 2/100, conversations_per_user := 1,
             avg_questions_per_convo := 2 }),
   ("Medium", { engagement_rate := 3/100, conversations_per_user := 22/10,
                avg_questions_per_convo := 4 }),
   ("Heavy", { engagement_rate := 6/100, conversations_per_user := 46/10,
               avg_questions_per_convo := 8 }),
   ("Custom", { engagement_rate := 5/100, conversations_per_user := 21/10,
                avg_questions_per_convo := 5 })]

/-- One iteration of the turn loop in `calculate_costs` (main.py lines
91-97).  The accumulator carries `(tokens_per_conversation,
previous_tokens)`; `i` is the loop index from `range(1, n+1)`. -/
def convTurnStep (tokens_per_turn : ℕ) (acc : ℕ × ℕ) (i : ℕ) : ℕ × ℕ :=
  let current_tokens := tokens_per_turn
  if 1 < i then (acc.1 + (current_tokens + acc.2), current_tokens)
  else (acc.1 + current_tokens, current_tokens)

/-- The whole turn loop `for i in range(1, avg_questions_per_convo + 1)`
started from `tokens_per_conversation = 0`, `previous_tokens = 0`;
`List.range' 1 n` is Python's `range(1, n + 1)`. -/
def convTokensLoop (tokens_per_turn n : ℕ) : ℕ × ℕ :=
  (List.range' 1 n).foldl (convTurnStep tokens_per_turn) (0, 0)

/-- `calculate_costs` (main.py lines 70-111), with the ambient session
state passed and returned explicitly.  The Python function writes its
metrics dict into `st.session_state['calculated_metrics']` and returns
that stored entry. -/
def calculate_costs (sessionState : SessionState) (params : Params)
    (cost_per_token : ℚ) (total_visitors : ℚ)
    (tokens_per_question rag_tokens tokens_per_answer : ℕ) :
    SessionState × Metrics :=
  let engaged_users := total_visitors * params.engagement_rate
  let total_conversations := engaged_users * params.conversations_per_user
  let tokens_per_turn := tokens_per_question + rag_tokens + tokens_per_answer
  let tokens_per_conversation :=
    (convTokensLoop tokens_per_turn params.avg_questions_per_convo).1
  let total_tokens := total_conversations * (tokens_per_conversation : ℚ)
  let estimated_cost := total_tokens * cost_per_token
  let metrics : Metrics :=
    { engagedUsers := engaged_users
      totalConversations := total_conversations
      tokensPerConversation := tokens_per_conversation
      totalTokens := total_tokens
      estimatedCost := estimated_cost }
  ({ calculated_metrics := some metrics }, metrics)

/-- The metrics value `calculate_costs` computes, as a pure function of
its arguments (the computation in main.py lines 83-100 never reads the
session state, so the choice of starting state is immaterial). -/
def costMetrics (params : Params) (cost_per_token total_visitors : ℚ)
    (tokens_per_question rag_tokens tokens_per_answer : ℕ) : Metrics :=
  (calculate_costs initialSessionState params cost_per_token total_visitors
    tokens_per_question rag_tokens tokens_per_answer).2

/-- The dict returned by `get_sidebar_inputs` (main.py lines 230-243),
with each numeric widget value an exact rational and the integer widgets
(`avg_questions_per_convo` and the three token counts) naturals.
`conversion_rate` is already divided by 100 and `monthly_unique_visitors`
is `council_population * conversion_rate` (line 174). -/
structure UserInputs where
  model_type : String
  custom_cost_per_token : ℚ
  custom_cost_per_output_token : ℚ
  council_population : ℚ
  conversion_rate : ℚ
  monthly_unique_visitors : ℚ
  engagement_rate : ℚ
  conversations_per_user : ℚ
  avg_questions_per_convo : ℕ
  tokens_per_question : ℕ
  rag_tokens : ℕ
  tokens_per_answer : ℕ
deriving DecidableEq, Repr

/-- The `custom_costs` dict built in `main` (main.py lines 399-402). -/
structure CustomCosts where
  custom_cost_per_token : ℚ
  custom_cost_per_output_token : ℚ
deriving DecidableEq, Repr

/-- The `current_params` override built for the "Custom" scenario from
the sidebar inputs (main.py lines 258-262, and again lines 409-413). -/
def customParamsOf (user_inputs : UserInputs) : Params :=
  { engagement_rate := user_inputs.engagement_rate
    conversations_per_user := user_inputs.conversations_per_user
    avg_questions_per_convo := user_inputs.avg_questions_per_convo }

/-- One row of the DataFrame built by `generate_scenarios` (main.py
lines 276-285), keeping the numeric value behind each formatted column
(the `f"..."` string formatting is presentational). -/
structure Row where
  scenario : String
  engagement_rate_col : ℚ
  engaged_users_col : ℚ
  conversations_per_user_col : ℚ
  qs_per_conversation_col : ℕ
  cost_per_token_col : ℚ
  est_monthly_cost_col : ℚ
  est_annual_cost_col : ℚ
deriving DecidableEq, Repr

/-- The body of the `for scenario_name, params in SCENARIOS.items()` loop
in `generate_scenarios` (main.py lines 255-285): pick the params (user
inputs for "Custom", the stored preset otherwise), run `calculate_costs`
against the current session state, and append the row. -/
def scenarioStep (user_inputs : UserInputs) (custom_costs : CustomCosts)
    (acc : SessionState × List Row) (sp : String × Params) :
    SessionState × List Row :=
  let current_params : Params :=
    if sp.1 = "Custom" then customParamsOf user_inputs else sp.2
  let r := calculate_costs acc.1 current_params
      custom_costs.custom_cost_per_token user_inputs.monthly_unique_visitors
      user_inputs.tokens_per_question user_inputs.rag_tokens
      user_inputs.tokens_per_answer
  (r.1, acc.2 ++
    [{ scenario := sp.1
       engagement_rate_col := current_params.engagement_rate
       engaged_users_col := r.2.engagedUsers
       conversations_per_user_col := current_params.conversations_per_user
       qs_per_conversation_col := current_params.avg_questions_per_convo
       cost_per_token_col := custom_costs.custom_cost_per_token
       est_monthly_cost_col := r.2.estimatedCost
       est_annual_cost_col := r.2.estimatedCost * 12 }])

/-- `generate_scenarios` abstracted over the preset list it iterates
(the source iterates the module-level `SCENARIOS`), threading the
session state through the successive `calculate_costs` calls. -/
def generateScenariosFrom (presets : List (String × Params))
    (sessionState : SessionState) (user_inputs : UserInputs)
    (custom_costs : CustomCosts) : SessionState × List Row :=
  presets.foldl (scenarioStep user_inputs custom_costs) (sessionState, [])

/-- `generate_scenarios` (main.py lines 245-286): the fold above applied
to the module-level `SCENARIOS` dict. -/
def generate_scenarios : SessionState → UserInputs → CustomCosts →
    SessionState × List Row :=
  fun sessionState user_inputs custom_costs =>
    generateScenariosFrom SCENARIOS sessionState user_inputs custom_costs

/-- The `custom_costs` dict as `main` assembles it from the sidebar
inputs (main.py lines 399-402). -/
def mainCustomCosts (user_inputs : UserInputs) : CustomCosts :=
  { custom_cost_per_token := user_inputs.custom_cost_per_token
    custom_cost_per_output_token := user_inputs.custom_cost_per_output_token }

/-- The scenario table as produced inside `main` (main.py line 405):
`generate_scenarios` applied to the custom-costs dict built from the
same sidebar inputs. -/
def scenariosOfInputs (sessionState : SessionState)
    (user_inputs : UserInputs) : SessionState × List Row :=
  generate_scenarios sessionState user_inputs (mainCustomCosts user_inputs)

/-- The detailed-view call to `calculate_costs` in `main` (main.py lines
415-422): custom params, the input-token rate, and the sidebar token
counts. -/
def detailedEstimated (sessionState : SessionState)
    (user_inputs : UserInputs) : SessionState × Metrics :=
  calculate_costs sessionState (customParamsOf user_inputs)
    user_inputs.custom_cost_per_token user_inputs.monthly_unique_visitors
    user_inputs.tokens_per_question user_inputs.rag_tokens
    user_inputs.tokens_per_answer

/-- The full input bundle collected by the sidebar, as fed through
`main`/`generate_scenarios` into a single scenario's cost: population and
conversion rate determine the visitor count (main.py line 174), the rest
goes straight to `calculate_costs`. -/
structure Bundle where
  council_population : ℚ
  conversion_rate : ℚ
  engagement_rate : ℚ
  conversations_per_user : ℚ
  avg_questions_per_convo : ℕ
  tokens_per_question : ℕ
  rag_tokens : ℕ
  tokens_per_answer : ℕ
  cost_per_token : ℚ
deriving DecidableEq, Repr

/-- End-to-end estimated cost of a bundle: visitors =
population × conversion_rate, then the `calculate_costs` pipeline. -/
def bundleEstimatedCost (b : Bundle) : ℚ :=
  (costMetrics
    { engagement_rate := b.engagement_rate
      conversations_per_user := b.conversations_per_user
      avg_questions_per_convo := b.avg_questions_per_convo }
    b.cost_per_token (b.council_population * b.conversion_rate)
    b.tokens_per_question b.rag_tokens b.tokens_per_answer).estimatedCost

/-- The row `generate_scenarios` appends for one preset, as a pure
function of the preset and the inputs (no session state): the preset's
name, the parameters actually used (custom sidebar parameters when the
name is "Custom", the stored preset otherwise), and the metrics
`calculate_costs` computes for those parameters. -/
def scenarioRow (user_inputs : UserInputs) (custom_costs : CustomCosts)
    (sp : String × Params) : Row :=
  let current_params : Params :=
    if sp.1 = "Custom" then customParamsOf user_inputs else sp.2
  let m := costMetrics current_params custom_costs.custom_cost_per_token
      user_inputs.monthly_unique_visitors user_inputs.tokens_per_question
      user_inputs.rag_tokens user_inputs.tokens_per_answer
  { scenario := sp.1
    engagement_rate_col := current_params.engagement_rate
    engaged_users_col := m.engagedUsers
    conversations_per_user_col := current_params.conversations_per_user
    qs_per_conversation_col := current_params.avg_questions_per_convo
    cost_per_token_col := custom_costs.custom_cost_per_token
    est_monthly_cost_col := m.estimatedCost
    est_annual_cost_col := m.estimatedCost * 12 }

-- Sanity check of the loop against the documented worked example
-- (8,400 tokens per turn, 3 turns → 42,000).
example : (convTokensLoop 8400 3).1 = 42000 := by decide

/-- After `k ≥ 1` iterations the loop state is
`(tokens_per_turn * (2k - 1), tokens_per_turn)`: the first turn adds
`tokens_per_turn` once, every later turn adds it twice. -/
lemma convTokensLoop_closed (T : ℕ) (n : ℕ) (hn : 1 ≤ n) :
    convTokensLoop T n = (T * (2 * n - 1), T) := by
  induction n, hn using Nat.le_induction with
  | base =>
      unfold convTokensLoop
      rw [show List.range' 1 1 = [1] from rfl]
      simp [convTurnStep]
  | succ n hn ih =>
      have hr : List.range' 1 (n + 1) = List.range' 1 n ++ [1 + 1 * n] :=
        List.range'_concat 1 n
      unfold convTokensLoop at ih ⊢
      rw [hr, List.foldl_append, ih]
      have h1 : 1 < 1 + 1 * n := by omega
      simp only [List.foldl_cons, List.foldl_nil, convTurnStep]
      rw [if_pos h1]
      refine Prod.ext ?_ rfl
      show T * (2 * n - 1) + (T + T) = T * (2 * (n + 1) - 1)
      have h2 : 2 * (n + 1) - 1 = (2 * n - 1) + 2 := by omega
      rw [h2, Nat.mul_add]
      ring

/-- The first component (`tokens_per_conversation`) satisfies the closed
form `T * (2n - 1)` for every `n`, the `n = 0` case being `0` on both
sides thanks to truncated subtraction. -/
lemma convTokensLoop_fst (T n : ℕ) :
    (convTokensLoop T n).1 = T * (2 * n - 1) := by
  rcases Nat.eq_zero_or_pos n with h0 | h1
  · subst h0; rfl
  · rw [convTokensLoop_closed T n h1]

/-- Evaluation of `costMetrics` with the turn loop replaced by its closed
form: every field is the product prescribed by the pipeline. -/
lemma costMetrics_eval (params : Params) (cost_per_token total_visitors : ℚ)
    (tokens_per_question rag_tokens tokens_per_answer : ℕ) :
    costMetrics params cost_per_token total_visitors tokens_per_question
        rag_tokens tokens_per_answer =
      { engagedUsers := total_visitors * params.engagement_rate
        totalConversations := total_visitors * params.engagement_rate *
          params.conversations_per_user
        tokensPerConversation :=
          (tokens_per_question + rag_tokens + tokens_per_answer) *
            (2 * params.avg_questions_per_convo - 1)
        totalTokens := total_visitors * params.engagement_rate *
          params.conversations_per_user *
          (((tokens_per_question + rag_tokens + tokens_per_answer) *
            (2 * params.avg_questions_per_convo - 1) : ℕ) : ℚ)
        estimatedCost := total_visitors * params.engagement_rate *
          params.conversations_per_user *
          (((tokens_per_question + rag_tokens + tokens_per_answer) *
            (2 * params.avg_questions_per_convo - 1) : ℕ) : ℚ) *
          cost_per_token } := by
  simp [costMetrics, calculate_costs, convTokensLoop_fst]

/-- One `scenarioStep` from any session state: the resulting state holds
the metrics of the current preset and the appended row is the pure
`scenarioRow` (the computed metrics never depend on the incoming
state). -/
lemma scenarioStep_eq (user_inputs : UserInputs) (custom_costs : CustomCosts)
    (acc : SessionState × List Row) (sp : String × Params) :
    scenarioStep user_inputs custom_costs acc sp =
      ({ calculated_metrics := some (costMetrics
          (if sp.1 = "Custom" then customParamsOf user_inputs else sp.2)
          custom_costs.custom_cost_per_token
          user_inputs.monthly_unique_visitors
          user_inputs.tokens_per_question user_inputs.rag_tokens
          user_inputs.tokens_per_answer) },
       acc.2 ++ [scenarioRow user_inputs custom_costs sp]) := rfl

/-- The scenario fold appends one `scenarioRow` per preset, in preset
order, whatever session state and row accumulator it starts from. -/
lemma foldl_scenarioStep_rows (user_inputs : UserInputs)
    (custom_costs : CustomCosts) :
    ∀ (presets : List (String × Params)) (s : SessionState) (rs : List Row),
      (presets.foldl (scenarioStep user_inputs custom_costs) (s, rs)).2 =
        rs ++ presets.map (scenarioRow user_inputs custom_costs) := by
  intro presets
  induction presets with
  | nil => intro s rs; simp
  | cons sp tl ih =>
      intro s rs
      rw [List.foldl_cons, scenarioStep_eq, ih]
      simp

/-- `bundleEstimatedCost` as the product of the pipeline factors. -/
lemma bundleEstimatedCost_eval (b : Bundle) :
    bundleEstimatedCost b =
      b.council_population * b.conversion_rate * b.engagement_rate *
        b.conversations_per_user *
        (((b.tokens_per_question + b.rag_tokens + b.tokens_per_answer) *
          (2 * b.avg_questions_per_convo - 1) : ℕ) : ℚ) *
        b.cost_per_token := by
  rw [bundleEstimatedCost, costMetrics_eval]

/-- C1: for non-negative token counts and `questions_per_conversation =
n ≥ 1`, the turn loop of `calculate_costs` (turn 1 contributes
`tokens_per_turn`, each later turn contributes `tokens_per_turn` plus the
previous turn's tokens) yields `tokens_per_conversation = tokens_per_turn
* (2n - 1)`, where `tokens_per_turn = tokens_per_question + rag_tokens +
tokens_per_answer`. -/
theorem calculate_costs_turn_loop_closed_form (sessionState : SessionState)
    (params : Params) (cost_per_token total_visitors : ℚ)
    (tokens_per_question rag_tokens tokens_per_answer : ℕ)
    (hn : 1 ≤ params.avg_questions_per_convo) :
    ((calculate_costs sessionState params cost_per_token total_visitors
        tokens_per_question rag_tokens
        tokens_per_answer).2).tokensPerConversation =
      (tokens_per_question + rag_tokens + tokens_per_answer) *
        (2 * params.avg_questions_per_convo - 1) := by
  show (convTokensLoop
      (tokens_per_question + rag_tokens + tokens_per_answer)
      params.avg_questions_per_convo).1 = _
  rw [convTokensLoop_closed _ _ hn]

/-- Witness for C1 at the "Medium" scenario's turn count (4 turns,
100 + 2000 + 300 tokens per turn, giving 2400 * 7 = 16800). -/
theorem calculate_costs_turn_loop_closed_form_witness :
    1 ≤ ({ engagement_rate := 3/100, conversations_per_user := 22/10,
           avg_questions_per_convo := 4 } : Params).avg_questions_per_convo
    ∧ ((calculate_costs initialSessionState
        { engagement_rate := 3/100, conversations_per_user := 22/10,
          avg_questions_per_convo := 4 } 1 100 100 2000 300).2
        ).tokensPerConversation = (100 + 2000 + 300) * (2 * 4 - 1) :=
  ⟨by decide,
   calculate_costs_turn_loop_closed_form initialSessionState
     { engagement_rate := 3/100, conversations_per_user := 22/10,
       avg_questions_per_convo := 4 } 1 100 100 2000 300 (by decide)⟩

/-- C2: every `calculate_costs` result satisfies the four pipeline
equations: engaged users = visitors × engagement rate, conversations =
engaged users × conversations per user, total tokens = conversations ×
tokens per conversation, and estimated cost = total tokens × the single
blended per-token rate. -/
theorem calculate_costs_pipeline_equations (sessionState : SessionState)
    (params : Params) (cost_per_token total_visitors : ℚ)
    (tokens_per_question rag_tokens tokens_per_answer : ℕ) :
    ((calculate_costs sessionState params cost_per_token total_visitors
        tokens_per_question rag_tokens tokens_per_answer).2).engagedUsers =
      total_visitors * params.engagement_rate
    ∧ ((calculate_costs sessionState params cost_per_token total_visitors
        tokens_per_question rag_tokens
        tokens_per_answer).2).totalConversations =
      ((calculate_costs sessionState params cost_per_token total_visitors
        tokens_per_question rag_tokens tokens_per_answer).2).engagedUsers *
        params.conversations_per_user
    ∧ ((calculate_costs sessionState params cost_per_token total_visitors
        tokens_per_question rag_tokens tokens_per_answer).2).totalTokens =
      ((calculate_costs sessionState params cost_per_token total_visitors
        tokens_per_question rag_tokens
        tokens_per_answer).2).totalConversations *
        (((calculate_costs sessionState params cost_per_token total_visitors
          tokens_per_question rag_tokens
          tokens_per_answer).2).tokensPerConversation : ℚ)
    ∧ ((calculate_costs sessionState params cost_per_token total_visitors
        tokens_per_question rag_tokens tokens_per_answer).2).estimatedCost =
      ((calculate_costs sessionState params cost_per_token total_visitors
        tokens_per_question rag_tokens tokens_per_answer).2).totalTokens *
        cost_per_token :=
  ⟨rfl, rfl, rfl, rfl⟩

/-- C3 counterexample: `calculate_costs` is not side-effect free — a
single call starting from the freshly initialised session state leaves
the session state changed (`'calculated_metrics'` is overwritten with
the new metrics dict), refuting "no state outside its return value
changes across a call". -/
theorem calculate_costs_session_write_counterexample :
    (calculate_costs initialSessionState
        { engagement_rate := 2/100, conversations_per_user := 1,
          avg_questions_per_convo := 2 } 1 100 1 1 1).1 ≠
      initialSessionState := by
  intro h
  have h2 := congrArg SessionState.calculated_metrics h
  simp [calculate_costs, initialSessionState] at h2

/-- C3 amended: the only side effect of `calculate_costs` is overwriting
`st.session_state['calculated_metrics']` with the metrics mapping it
returns; it reads no ambient state — both the returned metrics and the
resulting session state are independent of the incoming state. -/
theorem calculate_costs_sole_effect_is_metrics_cache
    (s s' : SessionState) (params : Params)
    (cost_per_token total_visitors : ℚ)
    (tokens_per_question rag_tokens tokens_per_answer : ℕ) :
    (calculate_costs s params cost_per_token total_visitors
        tokens_per_question rag_tokens tokens_per_answer).1 =
      { calculated_metrics :=
          some ((calculate_costs s params cost_per_token total_visitors
            tokens_per_question rag_tokens tokens_per_answer).2) }
    ∧ calculate_costs s params cost_per_token total_visitors
        tokens_per_question rag_tokens tokens_per_answer =
      calculate_costs s' params cost_per_token total_visitors
        tokens_per_question rag_tokens tokens_per_answer :=
  ⟨rfl, rfl⟩

/-- C4: for every preset list (and in particular the insertion-ordered
`SCENARIOS` = Low, Medium, Heavy, Custom), `generate_scenarios` emits
exactly one row per preset, in order; a preset named "Custom" is
estimated with the caller-supplied custom parameters — its stored
defaults (`sp.2`) do not occur in its row — and every other preset is
estimated with its own stored parameters. -/
theorem generate_scenarios_one_row_per_preset :
    (∀ (presets : List (String × Params)) (sessionState : SessionState)
        (user_inputs : UserInputs) (custom_costs : CustomCosts),
      (generateScenariosFrom presets sessionState user_inputs
          custom_costs).2 =
        presets.map (fun sp =>
          let current_params : Params :=
            if sp.1 = "Custom" then customParamsOf user_inputs else sp.2
          let m := costMetrics current_params
              custom_costs.custom_cost_per_token
              user_inputs.monthly_unique_visitors
              user_inputs.tokens_per_question user_inputs.rag_tokens
              user_inputs.tokens_per_answer
          { scenario := sp.1
            engagement_rate_col := current_params.engagement_rate
            engaged_users_col := m.engagedUsers
            conversations_per_user_col :=
              current_params.conversations_per_user
            qs_per_conversation_col := current_params.avg_questions_per_convo
            cost_per_token_col := custom_costs.custom_cost_per_token
            est_monthly_cost_col := m.estimatedCost
            est_annual_cost_col := m.estimatedCost * 12 }))
    ∧ SCENARIOS.map Prod.fst = ["Low", "Medium", "Heavy", "Custom"]
    ∧ (∀ (sessionState : SessionState) (user_inputs : UserInputs)
        (custom_costs : CustomCosts),
      (generate_scenarios sessionState user_inputs custom_costs).2 =
        SCENARIOS.map (scenarioRow user_inputs custom_costs)) := by
  refine ⟨fun presets s ui cc => ?_, rfl, fun s ui cc => ?_⟩
  · rw [show (generateScenariosFrom presets s ui cc).2 =
        (presets.foldl (scenarioStep ui cc) (s, [])).2 from rfl,
      foldl_scenarioStep_rows]
    rfl
  · rw [show (generate_scenarios s ui cc).2 =
        (SCENARIOS.foldl (scenarioStep ui cc) (s, [])).2 from rfl,
      foldl_scenarioStep_rows]
    rfl

/-- C5: over pre-validated, non-negative, correctly-bounded inputs the
estimated cost is monotone: if one bundle dominates another field by
field (which covers, in particular, two bundles that differ only by
increasing a single one of population, conversion rate, engagement rate,
conversations per user, questions per conversation, any token-count
field, or cost per token), its estimated cost is at least as large. -/
theorem estimated_cost_monotone (b1 b2 : Bundle)
    (hpop0 : 0 ≤ b1.council_population)
    (hconv0 : 0 ≤ b1.conversion_rate)
    (heng0 : 0 ≤ b1.engagement_rate)
    (hcpu0 : 0 ≤ b1.conversations_per_user)
    (hcost0 : 0 ≤ b1.cost_per_token)
    (hpop : b1.council_population ≤ b2.council_population)
    (hconv : b1.conversion_rate ≤ b2.conversion_rate)
    (heng : b1.engagement_rate ≤ b2.engagement_rate)
    (hcpu : b1.conversations_per_user ≤ b2.conversations_per_user)
    (hq : b1.avg_questions_per_convo ≤ b2.avg_questions_per_convo)
    (htq : b1.tokens_per_question ≤ b2.tokens_per_question)
    (hrag : b1.rag_tokens ≤ b2.rag_tokens)
    (hta : b1.tokens_per_answer ≤ b2.tokens_per_answer)
    (hcost : b1.cost_per_token ≤ b2.cost_per_token) :
    bundleEstimatedCost b1 ≤ bundleEstimatedCost b2 := by
  rw [bundleEstimatedCost_eval, bundleEstimatedCost_eval]
  have hpop0' : (0 : ℚ) ≤ b2.council_population := hpop0.trans hpop
  have hconv0' : (0 : ℚ) ≤ b2.conversion_rate := hconv0.trans hconv
  have heng0' : (0 : ℚ) ≤ b2.engagement_rate := heng0.trans heng
  have hcpu0' : (0 : ℚ) ≤ b2.conversations_per_user := hcpu0.trans hcpu
  have ht : (b1.tokens_per_question + b1.rag_tokens + b1.tokens_per_answer) *
      (2 * b1.avg_questions_per_convo - 1) ≤
      (b2.tokens_per_question + b2.rag_tokens + b2.tokens_per_answer) *
      (2 * b2.avg_questions_per_convo - 1) :=
    Nat.mul_le_mul (by omega) (by omega)
  have htQ : (((b1.tokens_per_question + b1.rag_tokens +
      b1.tokens_per_answer) * (2 * b1.avg_questions_per_convo - 1) : ℕ) :
      ℚ) ≤ (((b2.tokens_per_question + b2.rag_tokens +
      b2.tokens_per_answer) * (2 * b2.avg_questions_per_convo - 1) : ℕ) :
      ℚ) := by exact_mod_cast ht
  have s1 : b1.council_population * b1.conversion_rate ≤
      b2.council_population * b2.conversion_rate :=
    mul_le_mul hpop hconv hconv0 hpop0'
  have s1n : (0 : ℚ) ≤ b1.council_population * b1.conversion_rate :=
    mul_nonneg hpop0 hconv0
  have s2 := mul_le_mul s1 heng heng0 (mul_nonneg hpop0' hconv0')
  have s2n := mul_nonneg s1n heng0
  have s3 := mul_le_mul s2 hcpu hcpu0
    (mul_nonneg (mul_nonneg hpop0' hconv0') heng0')
  have s3n := mul_nonneg s2n hcpu0
  have t1n : (0 : ℚ) ≤ (((b1.tokens_per_question + b1.rag_tokens +
      b1.tokens_per_answer) * (2 * b1.avg_questions_per_convo - 1) : ℕ) :
      ℚ) := Nat.cast_nonneg _
  have t2n : (0 : ℚ) ≤ (((b2.tokens_per_question + b2.rag_tokens +
      b2.tokens_per_answer) * (2 * b2.avg_questions_per_convo - 1) : ℕ) :
      ℚ) := Nat.cast_nonneg _
  have s4 := mul_le_mul s3 htQ t1n
    (mul_nonneg (mul_nonneg (mul_nonneg hpop0' hconv0') heng0') hcpu0')
  exact mul_le_mul s4 hcost hcost0
    (mul_nonneg (mul_nonneg (mul_nonneg (mul_nonneg hpop0' hconv0')
      heng0') hcpu0') t2n)

/-- Witness for C5: increasing only the engagement rate (2% to 6%) on
otherwise identical concrete bundles does not decrease the estimated
cost. -/
theorem estimated_cost_monotone_witness :
    bundleEstimatedCost
      { council_population := 220000, conversion_rate := 574/1000,
        engagement_rate := 2/100, conversations_per_user := 12/10,
        avg_questions_per_convo := 4, tokens_per_question := 100,
        rag_tokens := 2000, tokens_per_answer := 300,
        cost_per_token := 36184/10000000000 } ≤
    bundleEstimatedCost
      { council_population := 220000, conversion_rate := 574/1000,
        engagement_rate := 6/100, conversations_per_user := 12/10,
        avg_questions_per_convo := 4, tokens_per_question := 100,
        rag_tokens := 2000, tokens_per_answer := 300,
        cost_per_token := 36184/10000000000 } :=
  estimated_cost_monotone _ _ (by norm_num) (by norm_num) (by norm_num)
    (by norm_num) (by norm_num) (by norm_num) (by norm_num) (by norm_num)
    (by norm_num) (by norm_num) (by norm_num) (by norm_num) (by norm_num)
    (by norm_num)

/-- C6: if the engagement rate, the conversations per user, or the
questions per conversation is zero, `calculate_costs` yields a zero
estimated cost; with zero questions per conversation the tokens per
conversation and total tokens are zero as well, returned as an ordinary
result. -/
theorem calculate_costs_zero_propagation (sessionState : SessionState)
    (params : Params) (cost_per_token total_visitors : ℚ)
    (tokens_per_question rag_tokens tokens_per_answer : ℕ)
    (h : params.engagement_rate = 0 ∨ params.conversations_per_user = 0 ∨
         params.avg_questions_per_convo = 0) :
    ((calculate_costs sessionState params cost_per_token total_visitors
        tokens_per_question rag_tokens tokens_per_answer).2).estimatedCost
      = 0
    ∧ (params.avg_questions_per_convo = 0 →
        ((calculate_costs sessionState params cost_per_token total_visitors
          tokens_per_question rag_tokens
          tokens_per_answer).2).tokensPerConversation = 0
        ∧ ((calculate_costs sessionState params cost_per_token
          total_visitors tokens_per_question rag_tokens
          tokens_per_answer).2).totalTokens = 0) := by
  have he : (calculate_costs sessionState params cost_per_token
      total_visitors tokens_per_question rag_tokens tokens_per_answer).2 =
      costMetrics params cost_per_token total_visitors tokens_per_question
        rag_tokens tokens_per_answer := rfl
  rw [he, costMetrics_eval]
  constructor
  · rcases h with h | h | h
    · simp [h]
    · simp [h]
    · simp [h]
  · intro h0
    constructor
    · simp [h0]
    · simp [h0]

/-- Witness for C6 at a zero engagement rate (other inputs arbitrary
concrete values). -/
theorem calculate_costs_zero_propagation_witness :
    (({ engagement_rate := 0, conversations_per_user := 12/10,
        avg_questions_per_convo := 4 } : Params).engagement_rate = 0 ∨
     ({ engagement_rate := 0, conversations_per_user := 12/10,
        avg_questions_per_convo := 4 } :
        Params).conversations_per_user = 0 ∨
     ({ engagement_rate := 0, conversations_per_user := 12/10,
        avg_questions_per_convo := 4 } :
        Params).avg_questions_per_convo = 0)
    ∧ ((calculate_costs initialSessionState
        { engagement_rate := 0, conversations_per_user := 12/10,
          avg_questions_per_convo := 4 } 1 126280 100 2000
        300).2).estimatedCost = 0 :=
  ⟨Or.inl rfl,
   (calculate_costs_zero_propagation initialSessionState
     { engagement_rate := 0, conversations_per_user := 12/10,
       avg_questions_per_convo := 4 } 1 126280 100 2000 300
     (Or.inl rfl)).1⟩

/-- C7: at the documented default inputs (visitors = 220000 × 0.574,
engagement rate 3%, 1.2 conversations per user, 4 questions per
conversation, 300 tokens per turn split as 100 + 0 + 200, cost per token
£0.0000036184) the pipeline yields tokens_per_conversation = 2100
exactly, and engaged users, conversations, total tokens and cost within
0.1% of the documented ≈3,788, ≈4,546, ≈9,546,600 and ≈£34.56 (exact
values: 3,788.4, 4,546.08, 9,546,768 and £34.5440...). -/
theorem calculate_costs_documented_defaults :
    |(costMetrics
        { engagement_rate := 3/100, conversations_per_user := 12/10,
          avg_questions_per_convo := 4 } (36184/10000000000)
        (220000 * (574/1000)) 100 0 200).engagedUsers - 3788| ≤
      3788/1000
    ∧ |(costMetrics
        { engagement_rate := 3/100, conversations_per_user := 12/10,
          avg_questions_per_convo := 4 } (36184/10000000000)
        (220000 * (574/1000)) 100 0 200).totalConversations - 4546| ≤
      4546/1000
    ∧ (costMetrics
        { engagement_rate := 3/100, conversations_per_user := 12/10,
          avg_questions_per_convo := 4 } (36184/10000000000)
        (220000 * (574/1000)) 100 0 200).tokensPerConversation = 2100
    ∧ |(costMetrics
        { engagement_rate := 3/100, conversations_per_user := 12/10,
          avg_questions_per_convo := 4 } (36184/10000000000)
        (220000 * (574/1000)) 100 0 200).totalTokens - 9546600| ≤
      9546600/1000
    ∧ |(costMetrics
        { engagement_rate := 3/100, conversations_per_user := 12/10,
          avg_questions_per_convo := 4 } (36184/10000000000)
        (220000 * (574/1000)) 100 0 200).estimatedCost - 3456/100| ≤
      3456/100000 := by
  rw [costMetrics_eval]
  norm_num [abs_le]

/-- C8: `calculate_costs` is deterministic — identical inputs give
bit-identical results, whatever the prior session state (the whole
result, returned state included, is a pure function of the
arguments). -/
theorem calculate_costs_deterministic (s1 s2 : SessionState)
    (params : Params) (cost_per_token total_visitors : ℚ)
    (tokens_per_question rag_tokens tokens_per_answer : ℕ) :
    calculate_costs s1 params cost_per_token total_visitors
        tokens_per_question rag_tokens tokens_per_answer =
      calculate_costs s2 params cost_per_token total_visitors
        tokens_per_question rag_tokens tokens_per_answer := rfl

/-- C9: the cost-per-output-token input never influences any result:
changing only `custom_cost_per_output_token` leaves the
`generate_scenarios` table (and threaded state), the `main`-level
scenario table, and the detailed `calculate_costs` metrics unchanged —
estimated cost depends only on the single input-token rate. -/
theorem custom_cost_per_output_token_unused (sessionState : SessionState)
    (user_inputs : UserInputs) (custom_costs : CustomCosts) (x : ℚ) :
    generate_scenarios sessionState user_inputs
        { custom_costs with custom_cost_per_output_token := x } =
      generate_scenarios sessionState user_inputs custom_costs
    ∧ scenariosOfInputs sessionState
        { user_inputs with custom_cost_per_output_token := x } =
      scenariosOfInputs sessionState user_inputs
    ∧ detailedEstimated sessionState
        { user_inputs with custom_cost_per_output_token := x } =
      detailedEstimated sessionState user_inputs :=
  ⟨rfl, rfl, rfl⟩

/-- C10: every `calculate_costs` call overwrites the process-wide
`st.session_state['calculated_metrics']` cache with the metrics it
returns, and after `generate_scenarios` finishes iterating the presets
the cache holds exactly the metrics of the last-computed preset —
"Custom", estimated with the caller-supplied custom parameters. -/
theorem calculated_metrics_cache_last_preset :
    (∀ (s : SessionState) (params : Params)
        (cost_per_token total_visitors : ℚ)
        (tokens_per_question rag_tokens tokens_per_answer : ℕ),
      (calculate_costs s params cost_per_token total_visitors
          tokens_per_question rag_tokens
          tokens_per_answer).1.calculated_metrics =
        some ((calculate_costs s params cost_per_token total_visitors
          tokens_per_question rag_tokens tokens_per_answer).2))
    ∧ (∀ (s : SessionState) (user_inputs : UserInputs)
        (custom_costs : CustomCosts),
      (generate_scenarios s user_inputs
          custom_costs).1.calculated_metrics =
        some (costMetrics (customParamsOf user_inputs)
          custom_costs.custom_cost_per_token
          user_inputs.monthly_unique_visitors
          user_inputs.tokens_per_question user_inputs.rag_tokens
          user_inputs.tokens_per_answer)) :=
  ⟨fun _ _ _ _ _ _ _ => rfl, fun _ _ _ => rfl⟩
